import Mathlib

set_option maxHeartbeats 1000000

/-!
Shallow embedding of the Mind_Bloom postpartum-depression triage core
(`mindBloom/backend/feature_derivation.py`, the prediction tail of
`mindBloom/backend/main.py`, `mindBloom/backend/shap_explainer.py` and
`mindBloom/backend/database.py`), together with theorems settling the
spec claims about it.

Python conventions used throughout the embedding:
* Python scalars are modelled by `Value` (`None` / `int` / `float` / `str`);
  floats are modelled exactly as rationals (no claim depends on binary
  rounding).
* A Python expression that can raise is modelled with `Option`
  (`Option.none` = the call raises).
* Python dicts are association lists where the last binding for a key wins.
-/

namespace MindBloom

/-- Python scalar values as they occur in the questionnaire answer
dictionaries: `None`, an `int`, a `float` (modelled as an exact rational), or
a `str`. -/
inductive Value where
  | none : Value
  | int : Int → Value
  | rat : ℚ → Value
  | str : String → Value
deriving DecidableEq, Repr

/-- Python dict lookup `d.get(k)` on an association list built by successive
insertion: the last binding for `k` wins, absent keys give `Option.none`. -/
def dictGet (d : List (String × Value)) (k : String) : Option Value :=
  d.foldl (fun acc kv => if kv.1 = k then some kv.2 else acc) Option.none

/-- Python `d.get(k, default)`. -/
def dictGetD (d : List (String × Value)) (k : String) (default : Value) : Value :=
  (dictGet d k).getD default

/-- ASCII lower-casing of one character, the way Python `str.lower` acts on
every token this code base manipulates. -/
def lowerChar (c : Char) : Char :=
  if 'A' ≤ c ∧ c ≤ 'Z' then Char.ofNat (c.toNat + 32) else c

/-- Whitespace recognised by the model of Python `str.strip`. -/
def isSpaceChar (c : Char) : Bool :=
  c = ' ' || c = '\t' || c = '\n' || c = '\r'

/-- Strip leading and trailing whitespace from a character list. -/
def stripL (l : List Char) : List Char :=
  ((l.dropWhile isSpaceChar).reverse.dropWhile isSpaceChar).reverse

/-- Python `s.lower()`. -/
def pyLower (s : String) : String :=
  String.mk (s.toList.map lowerChar)

/-- Python `s.strip()`. -/
def pyStrip (s : String) : String :=
  String.mk (stripL s.toList)

/-- Python `s.lower().strip()`, the normalization applied before every
categorical lookup in `feature_derivation.py`. -/
def pyNorm (s : String) : String :=
  pyStrip (pyLower s)

/-- Python `str(value)`. The float branch renders the rational canonically;
no claim depends on Python's exact float-to-decimal rendering. -/
def pyStr : Value → String
  | Value.none => "None"
  | Value.int i => toString i
  | Value.rat q => toString q
  | Value.str s => s

/-- Decimal digit test. -/
def isDigitChar (c : Char) : Bool :=
  '0' ≤ c ∧ c ≤ '9'

/-- Value of a decimal digit character. -/
def digitVal (c : Char) : Nat :=
  c.toNat - '0'.toNat

/-- Natural number denoted by a list of decimal digits. -/
def digitsToNat (l : List Char) : Nat :=
  l.foldl (fun acc c => acc * 10 + digitVal c) 0

/-- Python `int(s)` on a string: optional surrounding whitespace, an optional
sign, then at least one decimal digit; anything else raises `ValueError`
(modelled as `Option.none`).  In particular `int("abc")` and `int("12.5")`
raise. -/
def parseIntString (s : String) : Option Int :=
  match stripL s.toList with
  | '-' :: rest =>
      if rest ≠ [] ∧ rest.all isDigitChar then some (-(digitsToNat rest : Int)) else Option.none
  | '+' :: rest =>
      if rest ≠ [] ∧ rest.all isDigitChar then some ((digitsToNat rest : Int)) else Option.none
  | rest =>
      if rest ≠ [] ∧ rest.all isDigitChar then some ((digitsToNat rest : Int)) else Option.none

/-- Python `int(float)`: truncation toward zero (`Int.div` is T-division). -/
def truncRat (q : ℚ) : Int :=
  q.num.tdiv (q.den : Int)

/-- Python `int(value)` on a scalar: succeeds on ints, floats and
integer-formatted strings; raises (`Option.none`) on `None` and on
non-numeric strings. -/
def pyInt : Value → Option Int
  | Value.int i => some i
  | Value.rat q => some (truncRat q)
  | Value.str s => parseIntString s
  | Value.none => Option.none

/-- The static `LABEL_ENCODINGS` table of `feature_derivation.py`, entries in
source order. -/
def LABEL_ENCODINGS : List (String × List (String × Int)) :=
  [ ("Education Level", [("college", 0), ("high school", 1), ("primary school", 2), ("university", 3)]),
    ("Husband\x27s education level", [("college", 0), ("high school", 1), ("primary school", 2), ("university", 3)]),
    ("Total children", [("more than two", 0), ("one", 1), ("two", 2)]),
    ("Disease before pregnancy", [("nan", 0), ("chronic disease", 1)]),
    ("Family type", [("joint", 0), ("nuclear", 1)]),
    ("Number of household members", [("2 to 5", 0), ("6 to 8", 1), ("9 or more", 2)]),
    ("Relationship with the in-laws", [("bad", 0), ("friendly", 1), ("good", 2), ("neutral", 3), ("poor", 4)]),
    ("Relationship with husband", [("bad", 0), ("friendly", 1), ("good", 2), ("neutral", 3), ("poor", 4)]),
    ("Relationship with the newborn", [("bad", 0), ("good", 1), ("neutral", 2), ("very good", 3)]),
    ("Relationship between father and newborn", [("bad", 0), ("good", 1), ("neutral", 2), ("very good", 3)]),
    ("Feeling about motherhood", [("happy", 0), ("neutral", 1), ("sad", 2)]),
    ("Recieved Support", [("high", 0), ("low", 1), ("medium", 2)]),
    ("Need for Support", [("high", 0), ("low", 1), ("medium", 2)]),
    ("Major changes or losses during pregnancy", [("no", 0), ("yes", 1)]),
    ("Abuse", [("nan", 0), ("no", 1), ("yes", 2)]),
    ("Trust and share feelings", [("nan", 0), ("no", 1), ("yes", 2)]),
    ("Pregnancy length", [("10 months", 0), ("9 months", 1), ("less than 5 months", 2)]),
    ("Pregnancy plan", [("no", 0), ("yes", 1)]),
    ("Regular checkups", [("no", 0), ("yes", 1)]),
    ("Fear of pregnancy", [("no", 0), ("yes", 1)]),
    ("Diseases during pregnancy", [("nan", 0), ("non chronic disease", 1)]),
    ("Age of immediate older children", [("13yr or more", 0), ("1yr to 3yr", 1), ("4yr to 6yr", 2), ("7yr to 12yr", 3), ("nan", 4)]),
    ("Birth compliancy", [("no", 0), ("yes", 1)]),
    ("Breastfeed", [("no", 0), ("yes", 1)]),
    ("Worry about newborn", [("no", 0), ("yes", 1)]),
    ("Relax/sleep when newborn is tended", [("no", 0), ("yes", 1)]),
    ("Relax/sleep when the newborn is asleep", [("no", 0), ("yes", 1)]),
    ("Angry after latest child birth", [("nan", 0), ("afraid", 1), ("tired", 2), ("worried", 3)]),
    ("Feeling for regular activities", [("nan", 0), ("afraid", 1), ("tired", 2), ("worried", 3)]),
    ("Depression before pregnancy (PHQ2)", [("negative", 0), ("positive", 1)]),
    ("Depression during pregnancy (PHQ2)", [("negative", 0), ("positive", 1)]),
    ("PHQ9 Result", [("mild", 0), ("minimal", 1), ("moderate", 2), ("moderately severe", 3), ("normal", 4), ("severe", 5)]) ]

/-- Lookup of a feature name in `LABEL_ENCODINGS` (dict semantics). -/
def tableGet (name : String) : Option (List (String × Int)) :=
  LABEL_ENCODINGS.foldl (fun acc kv => if kv.1 = name then some kv.2 else acc) Option.none

/-- Lookup of a token in one encoding dict (`value_lower in encoding` plus
`encoding[value_lower]`). -/
def assocGet (enc : List (String × Int)) (k : String) : Option Int :=
  enc.foldl (fun acc kv => if kv.1 = k then some kv.2 else acc) Option.none

/-- Does list `small` occur as a prefix of list `big` (element-wise)? -/
def startsL : List Char → List Char → Bool
  | [], _ => true
  | _ :: _, [] => false
  | a :: as, b :: bs => a = b && startsL as bs

/-- Does list `small` occur contiguously inside list `big`
(Python `small in big` on strings)? -/
def containsL : List Char → List Char → Bool
  | [], small => startsL small []
  | big@(_ :: t), small => startsL small big || containsL t small

/-- Python `key in value_lower or value_lower in key`: the two-sided substring
test used by `encode_categorical`'s partial-match loop. -/
def substrMatch (key v : String) : Bool :=
  containsL v.toList key.toList || containsL key.toList v.toList

/-- Direct embedding of `encode_categorical(column_name, value)` from
`feature_derivation.py`: unknown feature name gives 0; otherwise the value is
lower-cased and stripped, looked up exactly, then by two-sided substring
against the table keys in order (first match wins), and finally defaults
to 0. -/
def encode_categorical (column_name : String) (value : String) : Int :=
  match tableGet column_name with
  | Option.none => 0
  | some encoding =>
      let value_lower := pyNorm value
      match assocGet encoding value_lower with
      | some code => code
      | Option.none =>
          match encoding.find? (fun kv => substrMatch kv.1 value_lower) with
          | some kv => kv.2
          | Option.none => 0

/-- The nine PHQ-9 sub-question keys. -/
def PHQ9_QUESTIONS : List String :=
  ["phq9_q1", "phq9_q2", "phq9_q3", "phq9_q4", "phq9_q5",
   "phq9_q6", "phq9_q7", "phq9_q8", "phq9_q9"]

/-- Python `s.replace(pat, sub)` on character lists: replace every
non-overlapping occurrence, left to right. -/
def replaceL (needle repl : List Char) : List Char → List Char
  | [] => []
  | c :: rest =>
      if !needle.isEmpty && startsL needle (c :: rest) then
        repl ++ replaceL needle repl (rest.drop (needle.length - 1))
      else
        c :: replaceL needle repl rest
termination_by l => l.length
decreasing_by
  all_goals simp [List.length_drop]
  omega

/-- Python `s.replace(pat, sub)`. -/
def pyReplace (s pat sub : String) : String :=
  String.mk (replaceL pat.toList sub.toList s.toList)

/-- The string branch of one PHQ-9 sub-answer in `compute_phq9_score`:
textual frequency descriptors map to 0–3, otherwise `int()` is attempted and
any failure defaults to 0 (the `except` arm). -/
def phq9TextVal (s : String) : Int :=
  let t := pyNorm s
  if containsL t.toList "not at all".toList || t = "0" then 0
  else if containsL t.toList "several".toList || t = "1" then 1
  else if containsL t.toList "more than half".toList || t = "2" then 2
  else if containsL t.toList "nearly every".toList || t = "3" then 3
  else (parseIntString s).getD 0

/-- One term of the PHQ-9 sum: `total += int(val) if val else 0` after the
textual-conversion branch.  Never raises. -/
def phq9Term : Value → Int
  | Value.none => 0
  | Value.int i => i
  | Value.rat q => if q = 0 then 0 else truncRat q
  | Value.str s => phq9TextVal s

/-- Sum of the nine PHQ-9 sub-question answers; missing sub-answers
contribute 0.  Total by construction. -/
def phq9SubSum (inputs : List (String × Value)) : Int :=
  (PHQ9_QUESTIONS.map (fun q => phq9Term (dictGetD inputs q (Value.int 0)))).sum

/-- Embedding of `compute_phq9_score`: a present, non-`None` `phq9_score` is
coerced with `int()` — which raises (`Option.none`) on a non-numeric string —
otherwise the nine sub-questions are summed, which never raises. -/
def compute_phq9_score (inputs : List (String × Value)) : Option Int :=
  match dictGet inputs "phq9_score" with
  | some v => if v = Value.none then some (phq9SubSum inputs) else pyInt v
  | Option.none => some (phq9SubSum inputs)

/-- The `get_yes_no` helper of `derive_all_features`: absent key gives the
(normalized) default, a present `None` gives the default verbatim, any other
value is stringified, lower-cased and stripped. -/
def get_yes_no (inputs : List (String × Value)) (key default : String) : String :=
  match dictGet inputs key with
  | Option.none => pyNorm default
  | some v => if v = Value.none then default else pyNorm (pyStr v)

/-- The `get_category` helper of `derive_all_features`: like `get_yes_no`,
but a normalized value outside `valid` falls back to the default. -/
def get_category (inputs : List (String × Value)) (key default : String)
    (valid : List String) : String :=
  match dictGet inputs key with
  | Option.none =>
      let v := pyNorm default
      if valid ≠ [] ∧ v ∉ valid then default else v
  | some val =>
      if val = Value.none then default
      else
        let v := pyNorm (pyStr val)
        if valid ≠ [] ∧ v ∉ valid then default else v

/-- The PHQ-9 severity bucketing of `derive_all_features`
(`feature_derivation.py`, the `phq9_result` chain). -/
def phq9_result_band (phq9_score : Int) : String :=
  if phq9_score ≤ 4 then "minimal"
  else if phq9_score ≤ 9 then "mild"
  else if phq9_score ≤ 14 then "moderate"
  else if phq9_score ≤ 19 then "moderately severe"
  else "severe"

/-- The feature dictionary produced by `derive_all_features`: the source
builds a dict with exactly these keys, embedded here as one field per key
(Lean field name ↦ Python dict key is documented by the assignment order in
`deriveRaw`). -/
structure Features where
  age : Value
  numLatestPregnancy : Value
  educationLevel : Value
  husbandsEducation : Value
  totalChildren : Value
  familyType : Value
  phq9Score : Value
  phq9Result : Value
  numHouseholdMembers : Value
  diseaseBeforePregnancy : Value
  pregnancyLength : Value
  pregnancyPlan : Value
  regularCheckups : Value
  fearOfPregnancy : Value
  diseasesDuringPregnancy : Value
  feelingAboutMotherhood : Value
  recievedSupport : Value
  needForSupport : Value
  majorChangesOrLosses : Value
  abuse : Value
  trustAndShareFeelings : Value
  feelingForRegularActivities : Value
  angryAfterChildbirth : Value
  relationshipInlaws : Value
  relationshipHusband : Value
  relationshipNewborn : Value
  relationshipFatherNewborn : Value
  ageOlderChildren : Value
  birthCompliancy : Value
  breastfeed : Value
  worryAboutNewborn : Value
  relaxSleepTended : Value
  relaxSleepAsleep : Value
  depressionBeforePregnancy : Value
  depressionDuringPregnancy : Value
  newbornIllness : Value
  ageSquared : Value
  ageParityInteraction : Value
  ageVeryYoung : Value
  ageYoung : Value
  ageOptimal : Value
  ageAdvanced : Value
  phq9Minimal : Value
  phq9Mild : Value
  phq9Moderate : Value
  phq9Severe : Value
  highParityRisk : Value
  historyLossFlag : Value
  abuseFlag : Value
  depressionHistoryFlag : Value
  socialSupportIndex : Value
  lowSupportFlag : Value
  pregnancyStressScore : Value
  cumulativeRiskScore : Value

/-- Key normalization of `derive_all_features`:
`inputs = (k.lower().strip(): v for k, v in user_inputs.items())`. -/
def normalizeInputs (user_inputs : List (String × Value)) : List (String × Value) :=
  user_inputs.map (fun kv => (pyNorm kv.1, kv.2))

/-- The body of `derive_all_features` after the three fallible `int()`
coercions have succeeded: every remaining sub-step substitutes an explicit
default.  Field assignments follow the source line by line; Python dict keys
are noted where the Lean field name abbreviates them. -/
def deriveRaw (inputs : List (String × Value)) (age num_pregnancies phq9_score : Int) :
    Features :=
  let education := pyNorm (pyStr (dictGetD inputs "education_level" (Value.str "college")))
  let pregnancy_loss := get_yes_no inputs "history_of_pregnancy_loss" "no"
  let complications := get_yes_no inputs "pregnancy_complications" "no"
  let depression_history := get_yes_no inputs "depression_history" "no"
  let major_changes := get_yes_no inputs "major_changes" "no"
  let fear_pregnancy := get_yes_no inputs "fear_pregnancy" "no"
  let abuse := get_yes_no inputs "abuse" "no"
  let worry_newborn := get_yes_no inputs "worry_newborn" "no"
  let trust_share := get_yes_no inputs "trust_share_feelings" "yes"
  let breastfeed := get_yes_no inputs "breastfeed" "yes"
  let relationship_husband :=
    get_category inputs "relationship_husband" "good" ["good", "neutral", "bad", "friendly", "poor"]
  let relationship_inlaws :=
    get_category inputs "relationship_inlaws" "neutral" ["good", "neutral", "bad", "friendly", "poor"]
  let family_support := get_category inputs "family_support" "medium" ["high", "medium", "low"]
  let feeling_motherhood :=
    get_category inputs "feeling_motherhood" "neutral" ["happy", "neutral", "sad"]
  let family_type := get_category inputs "family_type" "nuclear" ["nuclear", "joint"]
  let total_children := get_category inputs "total_children" "one" ["one", "two", "more than two"]
  let pregnancy_length :=
    get_category inputs "pregnancy_length" "9 months" ["10 months", "9 months", "less than 5 months"]
  let household_members : Int :=
    if family_type = "joint" then 6
    else if total_children = "more than two" then 5
    else if total_children = "two" then 4
    else 3
  let emotional_state :=
    if phq9_score ≥ 15 then "worried"
    else if phq9_score ≥ 10 then "tired"
    else if phq9_score ≥ 5 then "afraid"
    else "nan"
  let newborn_rel :=
    if feeling_motherhood = "happy" ∧ family_support = "high" then "very good"
    else if feeling_motherhood = "sad" then "neutral"
    else "good"
  let older_children_age :=
    if num_pregnancies = 1 then "nan"
    else if num_pregnancies ≤ 3 then "1yr to 3yr"
    else "4yr to 6yr"
  let good_sleep := if phq9_score < 10 then "yes" else "no"
  let dep_status :=
    if depression_history = "yes" ∨ phq9_score ≥ 10 then "positive" else "negative"
  let husband_score : ℚ :=
    if relationship_husband ∈ ["good", "very good", "friendly"] then 1.0
    else if relationship_husband = "neutral" then 0.5 else 0.0
  let inlaws_score : ℚ :=
    if relationship_inlaws ∈ ["good", "very good", "friendly"] then 1.0
    else if relationship_inlaws = "neutral" then 0.5 else 0.0
  let support_score : ℚ :=
    if family_support = "high" then 1.0
    else if family_support = "medium" then 0.5 else 0.0
  let social_support_index : ℚ :=
    support_score * 0.40 + husband_score * 0.35 + inlaws_score * 0.25
  let fear_score : ℚ := if fear_pregnancy = "yes" then 1.0 else 0.0
  let complications_score : ℚ := if complications = "yes" then 1.0 else 0.0
  let changes_score : ℚ := if major_changes = "yes" then 1.0 else 0.0
  let pregnancy_stress_score : ℚ :=
    fear_score * 0.3 + complications_score * 0.3 + changes_score * 0.4
  let depression_history_flag : Int :=
    if depression_history = "yes" ∨ phq9_score ≥ 10 then 1 else 0
  let abuse_flag : Int := if abuse = "yes" then 1 else 0
  let history_loss_flag : Int := if pregnancy_loss = "yes" then 1 else 0
  let high_parity_risk : Int := if num_pregnancies ≥ 4 then 1 else 0
  { age := Value.int age
    numLatestPregnancy := Value.int num_pregnancies  -- "Number of the latest pregnancy"
    educationLevel := Value.str education
    husbandsEducation := dictGetD inputs "husbands_education" (Value.str education)
    totalChildren := Value.str total_children
    familyType := Value.str family_type
    phq9Score := Value.int phq9_score  -- "PHQ9 Score"
    phq9Result := Value.str (phq9_result_band phq9_score)  -- "PHQ9 Result"
    numHouseholdMembers := Value.int household_members  -- "Number of household members"
    diseaseBeforePregnancy :=
      Value.str (if complications = "yes" then "chronic disease" else "nan")
    pregnancyLength := Value.str pregnancy_length
    pregnancyPlan := Value.str (get_yes_no inputs "pregnancy_plan" "yes")
    regularCheckups := Value.str (get_yes_no inputs "regular_checkups" "yes")
    fearOfPregnancy := Value.str fear_pregnancy
    diseasesDuringPregnancy :=
      Value.str (if complications = "yes" then "non chronic disease" else "nan")
    feelingAboutMotherhood := Value.str feeling_motherhood
    recievedSupport := Value.str family_support  -- "Recieved Support"
    needForSupport := Value.str family_support  -- "Need for Support" (mirror)
    majorChangesOrLosses := Value.str major_changes  -- "Major changes or losses during pregnancy"
    abuse := Value.str abuse
    trustAndShareFeelings := Value.str trust_share
    feelingForRegularActivities := Value.str emotional_state
    angryAfterChildbirth := Value.str emotional_state  -- "Angry after latest child birth"
    relationshipInlaws := Value.str relationship_inlaws  -- "Relationship with the in-laws"
    relationshipHusband := Value.str relationship_husband
    relationshipNewborn := Value.str newborn_rel  -- "Relationship with the newborn"
    relationshipFatherNewborn :=
      Value.str (pyReplace (pyReplace relationship_husband "poor" "neutral") "friendly" "good")
    ageOlderChildren := Value.str older_children_age  -- "Age of immediate older children"
    birthCompliancy := Value.str (if pregnancy_loss = "no" then "yes" else "no")
    breastfeed := Value.str breastfeed
    worryAboutNewborn := Value.str worry_newborn
    relaxSleepTended := Value.str good_sleep  -- "Relax/sleep when newborn is tended"
    relaxSleepAsleep := Value.str good_sleep  -- "Relax/sleep when the newborn is asleep"
    depressionBeforePregnancy :=
      Value.str (if depression_history = "yes" then "positive" else "negative")
    depressionDuringPregnancy := Value.str dep_status  -- "Depression during pregnancy (PHQ2)"
    newbornIllness := Value.str (if worry_newborn = "yes" then "yes" else "no")
    ageSquared := Value.int (age ^ 2)
    ageParityInteraction := Value.int (age * num_pregnancies)
    ageVeryYoung := Value.int (if age < 21 then 1 else 0)
    ageYoung := Value.int (if 21 ≤ age ∧ age < 25 then 1 else 0)
    ageOptimal := Value.int (if 25 ≤ age ∧ age ≤ 35 then 1 else 0)
    ageAdvanced := Value.int (if age > 35 then 1 else 0)
    phq9Minimal := Value.int (if phq9_score ≤ 4 then 1 else 0)
    phq9Mild := Value.int (if 5 ≤ phq9_score ∧ phq9_score ≤ 9 then 1 else 0)
    phq9Moderate := Value.int (if 10 ≤ phq9_score ∧ phq9_score ≤ 14 then 1 else 0)
    phq9Severe := Value.int (if phq9_score ≥ 15 then 1 else 0)
    highParityRisk := Value.int high_parity_risk
    historyLossFlag := Value.int history_loss_flag
    abuseFlag := Value.int abuse_flag
    depressionHistoryFlag := Value.int depression_history_flag
    socialSupportIndex := Value.rat social_support_index
    lowSupportFlag :=
      Value.int (if family_support = "low" ∨ social_support_index < 0.4 then 1 else 0)
    pregnancyStressScore := Value.rat pregnancy_stress_score
    cumulativeRiskScore :=
      Value.rat ((depression_history_flag : ℚ) * 3.0 + (abuse_flag : ℚ) * 2.5 +
        (1 - social_support_index) * 2.0 + pregnancy_stress_score * 1.8 +
        (history_loss_flag : ℚ) * 1.5 + (high_parity_risk : ℚ) * 1.2) }

/-- One step of the encoding pass: `if col in features and
isinstance(features[col], str): features[col] = encode_categorical(col,
features[col])`. -/
def encodeIfStr (col : String) (v : Value) : Value :=
  match v with
  | Value.str s => Value.int (encode_categorical col s)
  | v => v

/-- The encoding pass of `derive_all_features` over the `categorical_columns`
list (all those keys are always present in the dict). -/
def encodePass (f : Features) : Features :=
  { f with
    educationLevel := encodeIfStr "Education Level" f.educationLevel
    husbandsEducation := encodeIfStr "Husband\x27s education level" f.husbandsEducation
    totalChildren := encodeIfStr "Total children" f.totalChildren
    diseaseBeforePregnancy := encodeIfStr "Disease before pregnancy" f.diseaseBeforePregnancy
    familyType := encodeIfStr "Family type" f.familyType
    numHouseholdMembers := encodeIfStr "Number of household members" f.numHouseholdMembers
    relationshipInlaws := encodeIfStr "Relationship with the in-laws" f.relationshipInlaws
    relationshipHusband := encodeIfStr "Relationship with husband" f.relationshipHusband
    relationshipNewborn := encodeIfStr "Relationship with the newborn" f.relationshipNewborn
    relationshipFatherNewborn :=
      encodeIfStr "Relationship between father and newborn" f.relationshipFatherNewborn
    feelingAboutMotherhood := encodeIfStr "Feeling about motherhood" f.feelingAboutMotherhood
    recievedSupport := encodeIfStr "Recieved Support" f.recievedSupport
    needForSupport := encodeIfStr "Need for Support" f.needForSupport
    majorChangesOrLosses :=
      encodeIfStr "Major changes or losses during pregnancy" f.majorChangesOrLosses
    abuse := encodeIfStr "Abuse" f.abuse
    trustAndShareFeelings := encodeIfStr "Trust and share feelings" f.trustAndShareFeelings
    pregnancyLength := encodeIfStr "Pregnancy length" f.pregnancyLength
    pregnancyPlan := encodeIfStr "Pregnancy plan" f.pregnancyPlan
    regularCheckups := encodeIfStr "Regular checkups" f.regularCheckups
    fearOfPregnancy := encodeIfStr "Fear of pregnancy" f.fearOfPregnancy
    diseasesDuringPregnancy := encodeIfStr "Diseases during pregnancy" f.diseasesDuringPregnancy
    ageOlderChildren := encodeIfStr "Age of immediate older children" f.ageOlderChildren
    birthCompliancy := encodeIfStr "Birth compliancy" f.birthCompliancy
    breastfeed := encodeIfStr "Breastfeed" f.breastfeed
    worryAboutNewborn := encodeIfStr "Worry about newborn" f.worryAboutNewborn
    relaxSleepTended := encodeIfStr "Relax/sleep when newborn is tended" f.relaxSleepTended
    relaxSleepAsleep := encodeIfStr "Relax/sleep when the newborn is asleep" f.relaxSleepAsleep
    angryAfterChildbirth := encodeIfStr "Angry after latest child birth" f.angryAfterChildbirth
    feelingForRegularActivities :=
      encodeIfStr "Feeling for regular activities" f.feelingForRegularActivities
    depressionBeforePregnancy :=
      encodeIfStr "Depression before pregnancy (PHQ2)" f.depressionBeforePregnancy
    depressionDuringPregnancy :=
      encodeIfStr "Depression during pregnancy (PHQ2)" f.depressionDuringPregnancy
    phq9Result := encodeIfStr "PHQ9 Result" f.phq9Result }

/-- The final re-bucketing of `Number of household members` into the three
ordinal bands (≤5 → 0, ≤8 → 1, else 2).  The field always holds an `int` by
construction; the catch-all arm is unreachable (the source would raise on a
non-int there). -/
def rebucketHousehold (f : Features) : Features :=
  { f with
    numHouseholdMembers :=
      match f.numHouseholdMembers with
      | Value.int h => Value.int (if h ≤ 5 then 0 else if h ≤ 8 then 1 else 2)
      | v => v }

/-- The fallible head of `derive_all_features`: key normalization and the
three `int()` coercions (age, number of pregnancies, direct PHQ-9 score);
`Option.none` models an exception escaping the function. -/
def derive_raw_features (user_inputs : List (String × Value)) : Option Features :=
  match pyInt (dictGetD (normalizeInputs user_inputs) "age" (Value.int 25)),
        pyInt (dictGetD (normalizeInputs user_inputs) "number_of_pregnancies" (Value.int 1)),
        compute_phq9_score (normalizeInputs user_inputs) with
  | some age, some num_pregnancies, some phq9_score =>
      some (deriveRaw (normalizeInputs user_inputs) age num_pregnancies phq9_score)
  | _, _, _ => Option.none

/-- Full embedding of `derive_all_features`: derivation, encoding pass, and
household re-bucketing. -/
def derive_all_features (user_inputs : List (String × Value)) : Option Features :=
  (derive_raw_features user_inputs).map (fun f => rebucketHousehold (encodePass f))

/-! Prediction-service label and probability post-processing, from the tails
of `predict_minimal` and `predict` in `mindBloom/backend/main.py`.  The
classifier is the external collaborator: its reported `classes_` metadata, the
predicted index and the outcome of `predict_proba` are parameters. -/

/-- Class-list resolution:
`classes = list(getattr(model, "classes_", ["high", "low", "medium"]))`. -/
def resolveClasses (classesMeta : Option (List String)) : List String :=
  classesMeta.getD ["high", "low", "medium"]

/-- Label resolution:
`risk_label = str(classes[pred_idx]) if pred_idx < len(classes) else str(pred_idx)`. -/
def resolveRiskLabel (classesMeta : Option (List String)) (pred_idx : Nat) : String :=
  let classes := resolveClasses classesMeta
  if h : pred_idx < classes.length then classes.get ⟨pred_idx, h⟩ else toString pred_idx

/-- Outcome of the classifier's probability interface on one request: the
attribute is absent, the call raises, or it returns a probability vector. -/
inductive ProbaOutcome where
  | absent : ProbaOutcome
  | raises : ProbaOutcome
  | ok : List ℚ → ProbaOutcome
deriving DecidableEq

/-- The probability step of the prediction endpoints: `probabilities` starts
as `None`; only an available, non-raising `predict_proba` whose vector length
matches a non-empty class list fills it (zipped with the resolved labels);
the surrounding `try/except` turns any failure back into `None`. -/
def resolveProbabilities (classesMeta : Option (List String)) (proba : ProbaOutcome) :
    Option (List (String × ℚ)) :=
  let classes := resolveClasses classesMeta
  match proba with
  | ProbaOutcome.absent => Option.none
  | ProbaOutcome.raises => Option.none
  | ProbaOutcome.ok probs =>
      if classes ≠ [] ∧ classes.length = probs.length then
        some (classes.zip probs)
      else Option.none

/-- The label/probability tail of `predict_minimal` and `predict`: the risk
label is computed first, then the best-effort probabilities. -/
def predictionTail (classesMeta : Option (List String)) (pred_idx : Nat)
    (proba : ProbaOutcome) : String × Option (List (String × ℚ)) :=
  (resolveRiskLabel classesMeta pred_idx, resolveProbabilities classesMeta proba)

/-! Attribution engine, from `get_shap_values` in
`mindBloom/backend/shap_explainer.py` (the module imported by `main.py`).
The SHAP library, the cached explainer and the numeric attribution values it
returns are external; they are parameters of `ShapEnv`. -/

/-- One entry of the importance list built by `get_shap_values`. -/
structure ShapItem where
  feature : String
  shap_value : ℚ
  feature_value : Value
  abs_shap_value : ℚ
  impact : Option String
deriving DecidableEq

/-- The external state `get_shap_values` runs against: whether `import shap`
succeeds, whether the module-level explainer was initialized, the number of
rows of the instance frame, the instance's columns/values, and the outcome of
`_shap_explainer.shap_values` (one flattened value per feature, or the raised
exception's message). -/
structure ShapEnv where
  shapImportOk : Bool
  explainerInitialized : Bool
  instanceRows : Nat
  featureNames : List String
  featureValues : List Value
  shapCompute : Except String (List ℚ)
  expectedValue : ℚ
  topK : Nat

/-- The dictionary returned by `get_shap_values`; a field is `Option.none`
when the corresponding key is absent from the returned Python dict. -/
structure ShapResult where
  success : Option Bool := Option.none
  error : Option String := Option.none
  baseValue : Option ℚ := Option.none
  topFeatures : Option (List ShapItem) := Option.none
  totalFeaturesAnalyzed : Option Nat := Option.none
  shapValuesAvailable : Option Bool := Option.none
  explainerType : Option String := Option.none

/-- The unranked importance list (`feature`, `shap_value`, `feature_value`,
`abs_shap_value`); `impact` is attached later, to the top-k entries only. -/
def buildImportanceList (names : List String) (vals : List Value) (shapVals : List ℚ) :
    List ShapItem :=
  ((names.zip vals).zip shapVals).map fun p =>
    { feature := p.1.1
      shap_value := p.2
      feature_value := p.1.2
      abs_shap_value := |p.2|
      impact := Option.none }

/-- Stable insertion of an item into a list sorted descending by
`abs_shap_value`: an earlier item with an equal key stays in front. -/
def insertAbsDesc (x : ShapItem) : List ShapItem → List ShapItem
  | [] => [x]
  | y :: ys =>
      if x.abs_shap_value ≥ y.abs_shap_value then x :: y :: ys
      else y :: insertAbsDesc x ys

/-- Stable descending sort by `abs_shap_value`
(`importance_list.sort(key=..., reverse=True)`, which is a stable sort). -/
def sortByAbsDesc (l : List ShapItem) : List ShapItem :=
  l.foldr insertAbsDesc []

/-- Impact labelling applied to each of the top-k entries. -/
def addImpact (it : ShapItem) : ShapItem :=
  { it with
    impact :=
      some (if it.shap_value > 0 then "increases_risk"
        else if it.shap_value < 0 then "decreases_risk"
        else "neutral") }

/-- Embedding of `get_shap_values`: three early error returns, then the
kernel-explainer computation, whose `try/except` yields either the success
dict or the failure dict.  This deployed module implements a single (kernel)
strategy and none of its returns carries an `explainer_type` key. -/
def get_shap_values (env : ShapEnv) : ShapResult :=
  if !env.shapImportOk then { error := some "SHAP not available" }
  else if !env.explainerInitialized then { error := some "SHAP explainer not initialized" }
  else if env.instanceRows = 0 then { error := some "Empty instance dataframe" }
  else
    match env.shapCompute with
    | Except.error e =>
        { success := some false, error := some e, shapValuesAvailable := some false }
    | Except.ok shapVals =>
        let importance := buildImportanceList env.featureNames env.featureValues shapVals
        let top := ((sortByAbsDesc importance).take env.topK).map addImpact
        { success := some true
          baseValue := some env.expectedValue
          topFeatures := some top
          totalFeaturesAnalyzed := some env.featureNames.length
          shapValuesAvailable := some true }

/-! Feedback store, from `mindBloom/backend/database.py`.  SQLite enforces
the `UNIQUE` constraints on `predictions.session_id` and
`feedback.session_id`; the declared `FOREIGN KEY` on `feedback.session_id` is
NOT enforced, because `get_connection` never issues
`PRAGMA foreign_keys = ON` and sqlite3 leaves foreign-key enforcement off by
default.  A constraint violation raises `IntegrityError`, which the `except`
arm converts to a `False` return with the transaction not committed. -/

/-- One row of the `feedback` table (the columns the claims touch). -/
structure FeedbackRow where
  session_id : String
  actual_outcome : String
deriving DecidableEq

/-- The database state: prediction rows (session id, predicted label) and
feedback rows. -/
structure DB where
  predictions : List (String × String)
  feedback : List FeedbackRow
deriving DecidableEq

/-- Embedding of `save_prediction`: the `UNIQUE` constraint on
`predictions.session_id` rejects a duplicate id (`IntegrityError` caught,
`False` returned, no row written). -/
def save_prediction (db : DB) (session_id predicted_label : String) : Bool × DB :=
  if (db.predictions.map Prod.fst).contains session_id then
    (false, db)
  else
    (true, { db with predictions := db.predictions ++ [(session_id, predicted_label)] })

/-- Embedding of `save_feedback`: the insert is checked only against the
`UNIQUE` constraint on `feedback.session_id`; the declared foreign key to
`predictions` is not enforced (no `PRAGMA foreign_keys = ON`), so a feedback
row with no matching prediction is accepted. -/
def save_feedback (db : DB) (session_id actual_outcome : String) : Bool × DB :=
  if (db.feedback.map FeedbackRow.session_id).contains session_id then
    (false, db)
  else
    (true, { db with feedback := db.feedback ++ [⟨session_id, actual_outcome⟩] })

/-! Concrete inputs used by the claim theorems, witnesses and
counterexamples. -/

/-- The end-to-end scenario answer set of spec §8.8. -/
def c5Answers : List (String × Value) :=
  [("age", Value.int 28), ("education_level", Value.str "university"),
   ("number_of_pregnancies", Value.int 2), ("phq9_score", Value.int 12),
   ("depression_history", Value.str "no"), ("relationship_husband", Value.str "good"),
   ("relationship_inlaws", Value.str "neutral"), ("family_support", Value.str "high"),
   ("feeling_motherhood", Value.str "happy"), ("major_changes", Value.str "no"),
   ("fear_pregnancy", Value.str "no"), ("abuse", Value.str "no"),
   ("worry_newborn", Value.str "yes")]

/-- A freshly initialized database: no predictions, no feedback. -/
def emptyDB : DB :=
  { predictions := [], feedback := [] }

/-- A fully healthy attribution environment: SHAP imported, explainer
initialized, a one-row instance, successful value computation. -/
def shapEnvOk : ShapEnv :=
  { shapImportOk := true
    explainerInitialized := true
    instanceRows := 1
    featureNames := ["Age"]
    featureValues := [Value.int 28]
    shapCompute := Except.ok [(1 : ℚ) / 2]
    expectedValue := 0
    topK := 10 }

/-! Claim theorems. -/

/-- C3: the screening-score bucketing of `derive_all_features` is a total,
non-overlapping partition of the integers 0..27 into the five severity bands
with exact boundaries: ≤ 4 minimal, 5–9 mild, 10–14 moderate, 15–19
moderately severe, ≥ 20 severe; every integer score in range maps to exactly
one band. -/
theorem phq9_band_partition :
    ∀ s : Nat, s < 28 →
      phq9_result_band (s : Int) ∈
        ["minimal", "mild", "moderate", "moderately severe", "severe"] ∧
      (phq9_result_band (s : Int) = "minimal" ↔ (s : Int) ≤ 4) ∧
      (phq9_result_band (s : Int) = "mild" ↔ 5 ≤ (s : Int) ∧ (s : Int) ≤ 9) ∧
      (phq9_result_band (s : Int) = "moderate" ↔ 10 ≤ (s : Int) ∧ (s : Int) ≤ 14) ∧
      (phq9_result_band (s : Int) = "moderately severe" ↔ 15 ≤ (s : Int) ∧ (s : Int) ≤ 19) ∧
      (phq9_result_band (s : Int) = "severe" ↔ 20 ≤ (s : Int)) := by
  decide

/-- Witness for C3 at the concrete score 12: the band is "moderate". -/
theorem phq9_band_partition_witness :
    phq9_result_band ((12 : Nat) : Int) = "moderate" ↔
      10 ≤ ((12 : Nat) : Int) ∧ ((12 : Nat) : Int) ≤ 14 :=
  (phq9_band_partition 12 (by decide)).2.2.2.1

/-- C5: on the §8.8 scenario answers, `derive_all_features` produces
screening band "moderate", `depression_history_flag` 1 (history "no" but the
score 12 is ≥ 10), sleep-quality proxy "no", and social-support index
0.40·1.0 + 0.35·1.0 + 0.25·0.5 = 0.875. -/
theorem c5_end_to_end_scenario :
    (derive_raw_features c5Answers).map Features.phq9Result =
      some (Value.str "moderate") ∧
    (derive_all_features c5Answers).map Features.depressionHistoryFlag =
      some (Value.int 1) ∧
    (derive_all_features c5Answers).map Features.relaxSleepTended =
      some (Value.int (encode_categorical "Relax/sleep when newborn is tended" "no")) ∧
    (derive_raw_features c5Answers).map Features.relaxSleepTended =
      some (Value.str "no") ∧
    (derive_all_features c5Answers).map Features.socialSupportIndex =
      some (Value.rat (0.40 * 1.0 + 0.35 * 1.0 + 0.25 * 0.5)) ∧
    (0.40 * 1.0 + 0.35 * 1.0 + 0.25 * 0.5 : ℚ) = 0.875 := by
  refine ⟨rfl, rfl, rfl, rfl, ?_, by norm_num⟩
  have h : (0.40 * 1.0 + 0.35 * 1.0 + 0.25 * 0.5 : ℚ) = 1.0 * 0.40 + 1.0 * 0.35 + 0.5 * 0.25 := by
    ring
  rw [h]
  rfl

/-- C8: recording feedback twice for one session id succeeds once and fails
the second time without overwriting; but a feedback row whose session id has
no matching prediction is accepted (returns `true`), because the declared
foreign key is never enforced — `get_connection` does not issue
`PRAGMA foreign_keys = ON`, so the claim's "also rejected" clause fails on
the code. -/
theorem save_feedback_behaviour :
    (save_feedback emptyDB "s1" "high").1 = true ∧
    (save_feedback emptyDB "s1" "high").2.predictions = [] ∧
    (save_feedback (save_feedback emptyDB "s1" "high").2 "s1" "low").1 = false ∧
    (save_feedback (save_feedback emptyDB "s1" "high").2 "s1" "low").2 =
      (save_feedback emptyDB "s1" "high").2 := by
  decide

/-- C4: `encode_categorical` is total by construction, insensitive to letter
case and surrounding whitespace (two raw values with the same
lower-cased/stripped form encode identically, hence "GOOD", "good" and
" Good " agree for every feature name), returns 0 for an unknown feature
name, and returns the default 0 when neither an exact nor a substring match
exists. -/
theorem encode_categorical_spec :
    (∀ f v w, pyNorm v = pyNorm w → encode_categorical f v = encode_categorical f w) ∧
    (∀ f, encode_categorical f "GOOD" = encode_categorical f "good" ∧
      encode_categorical f " Good " = encode_categorical f "good") ∧
    (∀ f v, tableGet f = Option.none → encode_categorical f v = 0) ∧
    (∀ f v enc, tableGet f = some enc →
      assocGet enc (pyNorm v) = Option.none →
      enc.find? (fun kv => substrMatch kv.1 (pyNorm v)) = Option.none →
      encode_categorical f v = 0) := by
  have hnorm : ∀ f v w, pyNorm v = pyNorm w →
      encode_categorical f v = encode_categorical f w := by
    intro f v w h
    simp only [encode_categorical, h]
  refine ⟨hnorm, ?_, ?_, ?_⟩
  · intro f
    exact ⟨hnorm f "GOOD" "good" (by decide), hnorm f " Good " "good" (by decide)⟩
  · intro f v h
    simp [encode_categorical, h]
  · intro f v enc h1 h2 h3
    simp [encode_categorical, h1, h2, h3]

/-- Witness for C4 at concrete inputs: case-insensitivity on a known feature
and the default on an unknown feature name. -/
theorem encode_categorical_spec_witness :
    encode_categorical "Relationship with husband" "GOOD" =
      encode_categorical "Relationship with husband" "good" ∧
    encode_categorical "No Such Feature" "whatever" = 0 :=
  ⟨encode_categorical_spec.1 "Relationship with husband" "GOOD" "good" (by decide),
   encode_categorical_spec.2.2.1 "No Such Feature" "whatever" (by decide)⟩

/-- C2 counterexample: with a classifier that exposes no `classes_` (so the
default 3-class list applies) and a predicted index of 3, the code's
out-of-range arm returns the string "3", which is outside the resolved class
list — refuting "never returns any string outside that set". -/
theorem risk_label_escapes_classes :
    resolveRiskLabel Option.none 3 = "3" ∧
    "3" ∉ resolveClasses Option.none := by
  decide

/-- C2 amended: the risk label is resolved via the classifier's reported
class list when present, via the default 3-class list otherwise, and is a
member of that list whenever the predicted index is within its bounds; only
an out-of-range index falls back to the stringified index. -/
theorem risk_label_in_classes_of_inrange :
    ∀ (classesMeta : Option (List String)) (pred_idx : Nat),
      pred_idx < (resolveClasses classesMeta).length →
      resolveRiskLabel classesMeta pred_idx ∈ resolveClasses classesMeta := by
  intro m i h
  unfold resolveRiskLabel
  rw [dif_pos h]
  exact List.get_mem _ _ _

/-- Witness for the amended C2: index 1 with the default class list resolves
to "low", a member of that list. -/
theorem risk_label_in_classes_witness :
    resolveRiskLabel Option.none 1 ∈ resolveClasses Option.none :=
  risk_label_in_classes_of_inrange Option.none 1 (by decide)

/-- C7: the probability step is best-effort.  When `predict_proba` is
absent, raises, or returns a vector whose length does not match the resolved
class list, the probabilities field is `Option.none`; the risk label is
always the one computed by label resolution, unaffected by the probability
outcome. -/
theorem probabilities_best_effort :
    ∀ (classesMeta : Option (List String)) (pred_idx : Nat),
      (predictionTail classesMeta pred_idx ProbaOutcome.absent).2 = Option.none ∧
      (predictionTail classesMeta pred_idx ProbaOutcome.raises).2 = Option.none ∧
      (∀ probs : List ℚ, (resolveClasses classesMeta).length ≠ probs.length →
        (predictionTail classesMeta pred_idx (ProbaOutcome.ok probs)).2 = Option.none) ∧
      (∀ proba : ProbaOutcome,
        (predictionTail classesMeta pred_idx proba).1 =
          resolveRiskLabel classesMeta pred_idx) := by
  intro m i
  refine ⟨rfl, rfl, ?_, fun _ => rfl⟩
  intro probs h
  simp only [predictionTail, resolveProbabilities]
  rw [if_neg]
  intro hc
  exact h hc.2

/-- Witness for C7 at concrete inputs: a raising `predict_proba` and a
length-mismatched vector both leave probabilities empty. -/
theorem probabilities_best_effort_witness :
    (predictionTail Option.none 0 ProbaOutcome.raises).2 = Option.none ∧
    (predictionTail Option.none 0 (ProbaOutcome.ok [1])).2 = Option.none ∧
    (predictionTail Option.none 0 ProbaOutcome.raises).1 =
      resolveRiskLabel Option.none 0 :=
  ⟨(probabilities_best_effort Option.none 0).2.1,
   (probabilities_best_effort Option.none 0).2.2.1 [1] (by decide),
   (probabilities_best_effort Option.none 0).2.2.2 ProbaOutcome.raises⟩

/-- C6 counterexample: a fully successful attribution result carries no
strategy-identifying field (`explainer_type` is absent from every return of
the deployed `get_shap_values`), and the not-initialized error result carries
neither the strategy field nor the per-instance boolean flag — refuting
"every attribution result contains ... a field identifying which of the four
strategies produced it". -/
theorem shap_result_lacks_strategy_field :
    (get_shap_values shapEnvOk).success = some true ∧
    (get_shap_values shapEnvOk).explainerType = Option.none ∧
    (get_shap_values { shapEnvOk with explainerInitialized := false }).explainerType =
      Option.none ∧
    (get_shap_values { shapEnvOk with explainerInitialized := false }).shapValuesAvailable =
      Option.none := by
  exact ⟨rfl, rfl, rfl, rfl⟩

/-- C6 amended: no result of the deployed `get_shap_values` carries a
strategy-identifying field (the module implements a single kernel-explainer
strategy); the boolean `shap_values_available` per-instance-attribution flag
is present exactly on the two computation outcomes (success and caught
exception) and absent from the three early-exit error results. -/
theorem shap_result_fields :
    ∀ env : ShapEnv,
      (get_shap_values env).explainerType = Option.none ∧
      ((get_shap_values env).shapValuesAvailable.isSome ↔
        env.shapImportOk = true ∧ env.explainerInitialized = true ∧
          env.instanceRows ≠ 0) := by
  intro env
  rcases env with ⟨imp, init, rows, names, vals, comp, ev, k⟩
  cases imp
  · simp [get_shap_values]
  · cases init
    · simp [get_shap_values]
    · by_cases hr : rows = 0
      · simp [get_shap_values, hr]
      · cases comp <;> simp [get_shap_values, hr]

/-- C1 counterexample: a non-numeric string in the `age` field makes the
`int()` coercion at the top of `derive_all_features` raise (`Option.none`),
refuting "never raises ... for all non-numeric string values". -/
theorem derive_raises_on_nonnumeric_age :
    derive_all_features [("age", Value.str "abc")] = Option.none := rfl

/-- C1 amended: `derive_all_features` raises exactly when one of its three
`int()` coercions fails — `age`, `number_of_pregnancies`, or a directly
supplied `phq9_score` holding a non-numeric string (or `None` for the first
two); every other sub-step, including the nine PHQ-9 sub-question coercions
and all categorical extractions, substitutes an explicit default and never
raises. -/
theorem derive_total_iff_coercions :
    ∀ u : List (String × Value),
      (derive_all_features u).isSome ↔
        ((pyInt (dictGetD (normalizeInputs u) "age" (Value.int 25))).isSome ∧
         (pyInt (dictGetD (normalizeInputs u) "number_of_pregnancies" (Value.int 1))).isSome ∧
         (compute_phq9_score (normalizeInputs u)).isSome) := by
  intro u
  unfold derive_all_features derive_raw_features
  cases h1 : pyInt (dictGetD (normalizeInputs u) "age" (Value.int 25)) <;>
    cases h2 : pyInt (dictGetD (normalizeInputs u) "number_of_pregnancies" (Value.int 1)) <;>
      cases h3 : compute_phq9_score (normalizeInputs u) <;>
        simp [h1, h2, h3]

/-- C9: the mirrored-field simplification holds unconditionally — whenever
derivation succeeds, "Need for Support" equals "Recieved Support" both in the
unencoded intermediate and in the encoded final feature vector, and the two
features' label-encoding tables are identical. -/
theorem need_for_support_mirrors :
    ∀ u raw final,
      derive_raw_features u = some raw →
      derive_all_features u = some final →
      raw.needForSupport = raw.recievedSupport ∧
      final.needForSupport = final.recievedSupport ∧
      tableGet "Need for Support" = tableGet "Recieved Support" := by
  intro u raw final h1 h2
  have h2' : final = rebucketHousehold (encodePass raw) := by
    rw [derive_all_features, h1] at h2
    exact (Option.some.inj h2).symm
  subst h2'
  unfold derive_raw_features at h1
  split at h1
  · injection h1 with h1
    subst h1
    exact ⟨rfl, rfl, rfl⟩
  · exact absurd h1 (by simp)

/-- Witness for C9 on the §8.8 scenario answers. -/
theorem need_for_support_mirrors_witness :
    ∃ raw final,
      derive_raw_features c5Answers = some raw ∧
      derive_all_features c5Answers = some final ∧
      raw.needForSupport = raw.recievedSupport ∧
      final.needForSupport = final.recievedSupport := by
  refine ⟨_, _, rfl, rfl, ?_, ?_⟩
  · exact (need_for_support_mirrors c5Answers _ _ rfl rfl).1
  · exact (need_for_support_mirrors c5Answers _ _ rfl rfl).2.1

/-- Helper for C10: the encoded household feature is the re-bucketing of the
internal household size, which is always one of 6, 5, 4, 3. -/
theorem deriveRaw_household (I : List (String × Value)) (a n p : Int) :
    ∃ hm : Int,
      (rebucketHousehold (encodePass (deriveRaw I a n p))).numHouseholdMembers =
        Value.int (if hm ≤ 5 then 0 else if hm ≤ 8 then 1 else 2) ∧
      (hm = 6 ∨ hm = 5 ∨ hm = 4 ∨ hm = 3) := by
  refine ⟨if (get_category I "family_type" "nuclear" ["nuclear", "joint"]) = "joint" then 6
    else if (get_category I "total_children" "one" ["one", "two", "more than two"]) =
        "more than two" then 5
    else if (get_category I "total_children" "one" ["one", "two", "more than two"]) =
        "two" then 4
    else 3, rfl, ?_⟩
  split_ifs <;> simp

/-- C10: through the public derivation interface the encoded "Number of
household members" feature is always 0 or 1; the "9 or more" band (code 2) is
unreachable because the internal household-size derivation only produces
3, 4, 5 or 6. -/
theorem household_code_in_01 :
    ∀ u final,
      derive_all_features u = some final →
      final.numHouseholdMembers = Value.int 0 ∨
        final.numHouseholdMembers = Value.int 1 := by
  intro u final h
  rw [derive_all_features] at h
  cases hr : derive_raw_features u with
  | none => rw [hr] at h; exact absurd h (by simp)
  | some raw =>
      rw [hr] at h
      have hfin : final = rebucketHousehold (encodePass raw) := (Option.some.inj h).symm
      subst hfin
      unfold derive_raw_features at hr
      split at hr
      · injection hr with hr
        subst hr
        obtain ⟨hm, heq, hc⟩ := deriveRaw_household _ _ _ _
        rw [heq]
        rcases hc with rfl | rfl | rfl | rfl <;> simp
      · exact absurd hr (by simp)

/-- Witness for C10 on the §8.8 scenario answers. -/
theorem household_code_in_01_witness :
    ∃ final,
      derive_all_features c5Answers = some final ∧
      (final.numHouseholdMembers = Value.int 0 ∨
        final.numHouseholdMembers = Value.int 1) :=
  ⟨_, rfl, household_code_in_01 c5Answers _ rfl⟩

end MindBloom
